import Mathlib

/-!
Shallow embedding of the GeoTIFF/stress-overlay map viewer
(React `App` component and Leaflet-based `Map` component).

Numbers that are JS floats in the source are modelled as rationals (ℚ);
the asynchronous fetch outcomes are modelled as explicit inputs to the
loader functions, and the component's mutable refs/state become an
explicit `AppState` record threaded through the loaders.
-/

namespace Polybee

/-- An `hsl(h, s%, l%)` CSS color, as produced for the stress fill. -/
structure Hsl where
  h : ℚ
  s : ℚ
  l : ℚ
deriving DecidableEq

/-- The Leaflet path style object returned by the stress-layer `style`
callback: `fillColor`, stroke `color`, stroke `weight`, `fillOpacity`. -/
structure PathStyle where
  fillColor : Hsl
  color : String
  weight : ℚ
  fillOpacity : ℚ
deriving DecidableEq

/-- `Math.min(1, Math.max(0, x))`. -/
def clamp01 (x : ℚ) : ℚ := min 1 (max 0 x)

/-- The `style` callback of `L.geoJSON` in `loadStressData`
(part_000 lines 120-138), as a function of `feature.properties.value`. -/
def stressStyle (ndviValue : ℚ) : PathStyle :=
  let stressValue := clamp01 ndviValue
  let h := stressValue * 120
  if ndviValue ≤ 3/10 then
    { fillColor := ⟨h, 100, 50⟩, color := "red", weight := 1/2, fillOpacity := 7/10 }
  else
    { fillColor := ⟨h, 100, 50⟩, color := "green", weight := 1/2, fillOpacity := 7/10 }

/-- An `rgba(r, g, b, a)` CSS color, as produced for raster pixels. -/
structure Rgba where
  r : ℚ
  g : ℚ
  b : ℚ
  a : ℚ
deriving DecidableEq

/-- The decoded raster object; only its no-data sentinel matters to the
pixel color function.  `none` models a raster with no sentinel defined. -/
structure Georaster where
  noDataValue : Option ℚ
deriving DecidableEq

/-- `pixelValuesToColorFn` of the `GeoRasterLayer` (part_000 lines 67-74).
A pixel is a list of band values; `none` inside the list models a
`null`/`undefined` band, an empty list models an absent first band.
Returning `none` models returning `null` (transparent, no draw). -/
def pixelValuesToColorFn (g : Georaster) (values : List (Option ℚ)) : Option Rgba :=
  match values.head?.bind id with
  | none => none
  | some value =>
      if some value = g.noDataValue then none
      else
        let intensity := min 255 (max 0 (value * 255))
        some ⟨intensity, intensity, intensity, 1/2⟩

/- ### Features, datasets and stress layers -/

/-- A GeoJSON feature as this app consumes it: `properties.value` is the
scalar stress metric, `properties.unit` an optional unit label (the
geometry plays no role in any claim and is carried as an opaque tag). -/
structure Feature where
  value : ℚ
  unit : Option String
  geometry : Nat
deriving DecidableEq

/-- A parsed JSON body of a vector source: either a FeatureCollection or
a single feature object (`dataset.type === "FeatureCollection"` test at
part_000 line 115). -/
inductive Dataset where
  | featureCollection (features : List Feature)
  | single (f : Feature)
deriving DecidableEq

/-- Line 115: `dataset.type === "FeatureCollection" ? dataset.features
: [dataset]` — the feature list a dataset denotes; `L.geoJSON` renders
exactly these features. -/
def datasetFeatures : Dataset → List Feature
  | .featureCollection fs => fs
  | .single f => [f]

/-- `feature.properties.unit || 'n/a'` (JS `||`, so an empty string also
falls back). -/
def unitDisplay : Option String → String
  | none => "n/a"
  | some u => if u = "" then "n/a" else u

/-- The data interpolated into a feature's popup (part_000 lines 142-146):
the NDVI value, the displayed unit, and the 1-based dataset label. -/
structure Popup where
  value : ℚ
  unit : String
  datasetLabel : Nat
deriving DecidableEq

/-- The popup bound to a feature of dataset number `idx` (0-based). -/
def featurePopup (idx : Nat) (f : Feature) : Popup :=
  { value := f.value, unit := unitDisplay f.unit, datasetLabel := idx + 1 }

/-- A constructed stress overlay layer: a fresh identity `id`, the index
of the dataset it came from, and the features it renders. -/
structure StressLayer where
  id : Nat
  datasetIndex : Nat
  features : List Feature
deriving DecidableEq

/-- `L.geoJSON(dataset, …)` for dataset number `idx`, with fresh
identity `id`. -/
def mkStressLayer (id idx : Nat) (d : Dataset) : StressLayer :=
  { id := id, datasetIndex := idx, features := datasetFeatures d }

/-- What a stress layer renders: each feature with its style and popup. -/
def renderStressLayer (sl : StressLayer) : List (Feature × PathStyle × Popup) :=
  sl.features.map (fun f => (f, stressStyle f.value, featurePopup sl.datasetIndex f))

/- ### Layers, viewport and application state -/

/-- A layer hosted by the map / registered in the layer control: the
base tile layer, the GeoTIFF raster layer (with a fresh identity), or a
stress overlay. -/
inductive Layer where
  | base
  | geotiff (id : Nat)
  | stress (sl : StressLayer)
deriving DecidableEq

/-- Whether a layer is a stress (vector) overlay. -/
def isStress : Layer → Bool
  | .stress _ => true
  | _ => false

/-- A geographic bounds rectangle reported by `layer.getBounds()`. -/
structure GeoBounds where
  south : ℚ
  west : ℚ
  north : ℚ
  east : ℚ
deriving DecidableEq

/-- The viewport: either an explicit center/zoom (`setView`) or fitted
to a bounds rectangle (`fitBounds`). -/
inductive Viewport where
  | view (lat lng : ℚ) (zoom : Nat)
  | fittedTo (b : GeoBounds)
deriving DecidableEq

/-- The state owned by the `App`/`Map` components across the loaders:
`mapLayers` are the layers currently added to the Leaflet map,
`registry` the named overlay entries of the layer control,
`stressLayers` models `stressLayersRef.current`, `status` the status
string, `loading` the `App` loading flag, `viewport` the map viewport.
`nextId` supplies fresh layer identities; `stressLoadCalls` counts
invocations of `loadStressData` and `setLoadingFalseCalls` the
`setLoading(false)` signals sent to `App`, so that temporal claims
("never invoked", "exactly once") are statable. -/
structure AppState where
  mapLayers : List Layer
  registry : List (String × Layer)
  stressLayers : List Layer
  status : String
  loading : Bool
  viewport : Viewport
  nextId : Nat
  stressLoadCalls : Nat
  setLoadingFalseCalls : Nat
deriving DecidableEq

/-- The state right after the map is initialised (part_000 lines 38-47):
view (0,0) zoom 2, base tile layer on the map, empty overlay registry;
`App` starts with `loading = true` (line 6). -/
def initialState : AppState :=
  { mapLayers := [Layer.base]
    registry := []
    stressLayers := []
    status := "Loading map..."
    loading := true
    viewport := Viewport.view 0 0 2
    nextId := 0
    stressLoadCalls := 0
    setLoadingFalseCalls := 0 }

/-- `App` (part_000 lines 13-17): the "Loading..." banner is shown
exactly while the loading flag is true. -/
def bannerShown (s : AppState) : Bool := s.loading

/- ### Vector overlay loading (`loadStressData`) -/

deriving instance DecidableEq for Except

/-- The outcome of one `fetch(url)` for a vector source: a rejected
promise (network error), or a resolved response carrying its HTTP `ok`
flag and the outcome of `res.json()` on its body. -/
inductive VFetch where
  | reject (msg : String)
  | resolved (ok : Bool) (body : Except String Dataset)
deriving DecidableEq

/-- `await Promise.all(urls.map(url => fetch(url)))` (line 103): fails
with the first rejection, otherwise yields every resolved response. -/
def fetchAll : List VFetch → Except String (List (Bool × Except String Dataset))
  | [] => .ok []
  | .reject m :: _ => .error m
  | .resolved ok body :: rest => (fetchAll rest).map (fun l => (ok, body) :: l)

/-- `await Promise.all(responses.map(res => res.json()))` (line 104):
fails with the first body that is not valid JSON, otherwise yields the
parsed datasets.  The HTTP `ok` flag of each response is never consulted. -/
def parseAll : List (Bool × Except String Dataset) → Except String (List Dataset)
  | [] => .ok []
  | (_, .error m) :: _ => .error m
  | (_, .ok d) :: rest => (parseAll rest).map (fun l => d :: l)

/-- The two awaited `Promise.all` stages of lines 103-104 composed: the
first rejection or parse failure propagates to the `catch` block,
otherwise all datasets are available. -/
def vectorBatchResult (inputs : List VFetch) : Except String (List Dataset) :=
  match fetchAll inputs with
  | .error m => .error m
  | .ok rs => parseAll rs

/-- The overlay name of dataset number `idx`:
`` `Stress Sample ${datasetIndex + 1}` `` (line 156). -/
def stressName (idx : Nat) : String := "Stress Sample " ++ toString (idx + 1)

/-- Lines 107-111: remove every layer in `stressLayersRef.current` from
the map and from the layer control, then clear the ref. -/
def removeStressLayers (s : AppState) : AppState :=
  { s with
    mapLayers := s.mapLayers.filter (fun l => decide (l ∉ s.stressLayers))
    registry := s.registry.filter (fun p => decide (p.2 ∉ s.stressLayers))
    stressLayers := [] }

/-- Lines 114-158, `jsonData.forEach((dataset, datasetIndex) => …)`:
build a stress layer per dataset, add only dataset 0 to the map, add
every one to the layer control and to `stressLayersRef.current`. -/
def processDatasets (s : AppState) (i : Nat) : List Dataset → AppState
  | [] => s
  | d :: rest =>
      let layer := Layer.stress (mkStressLayer s.nextId i d)
      processDatasets
        { s with
          nextId := s.nextId + 1
          mapLayers := if i = 0 then s.mapLayers ++ [layer] else s.mapLayers
          registry := s.registry ++ [(stressName i, layer)]
          stressLayers := s.stressLayers ++ [layer] }
        (i + 1) rest

/-- `loadStressData` (part_000 lines 99-166), as a function of the
current state and the outcome of the two (in general, `n`) concurrent
vector-source fetches.  On any fetch rejection or JSON parse failure the
`catch` block runs and only the status string changes; on success the
previous stress layers are replaced, the new overlays registered, the
success status set and `setLoading(false)` signalled. -/
def loadStressData (s : AppState) (inputs : List VFetch) : AppState :=
  let s := { s with
    stressLoadCalls := s.stressLoadCalls + 1
    status := "Loading stress data..." }
  match vectorBatchResult inputs with
  | .error m => { s with status := "Error loading stress data: " ++ m }
  | .ok jsonData =>
      let s := processDatasets (removeStressLayers s) 0 jsonData
      { s with
        status := "Stress data overlaid successfully"
        loading := false
        setLoadingFalseCalls := s.setLoadingFalseCalls + 1 }

/- ### Raster loading (`loadGeoTIFF`) -/

/-- The outcome of `fetch("/optimized_sample.tif")`: a rejected promise,
or a resolved response with its HTTP `ok` flag and `statusText`. -/
inductive RFetch where
  | reject (msg : String)
  | resolved (ok : Bool) (statusText : String)
deriving DecidableEq

/-- The environment-determined inputs of one `loadGeoTIFF` run: the
raster fetch outcome, the outcome of `parseGeoraster` on the bytes, and
`layer.getBounds()` (`none` models invalid bounds). -/
structure RasterInput where
  fetch : RFetch
  parse : Except String Georaster
  bounds : Option GeoBounds
deriving DecidableEq

/-- Whether the raster step fails (network rejection, non-success HTTP
status, or decode error) before reaching the vector overlay step. -/
def rasterFails (inp : RasterInput) : Bool :=
  match inp.fetch with
  | .reject _ => true
  | .resolved ok _ =>
      !ok ||
        (match inp.parse with
         | .error _ => true
         | .ok _ => false)

/-- Lines 50-88 of `loadGeoTIFF`: everything up to (but not including)
the call of `loadStressData`.  An `Except.error (m, s)` is a thrown
error `m` together with the state at the throw site (only the status
string has been mutated on those paths). -/
def rasterPhase (s : AppState) (inp : RasterInput) :
    Except (String × AppState) AppState :=
  let s := { s with status := "Fetching GeoTIFF file..." }
  match inp.fetch with
  | .reject m => .error (m, s)
  | .resolved ok statusText =>
      if ok then
        let s := { s with status := "Parsing GeoTIFF data..." }
        match inp.parse with
        | .error m => .error (m, s)
        | .ok _g =>
            let s := { s with status := "Creating GeoTIFF layer..." }
            let layer := Layer.geotiff s.nextId
            let s := { s with
              nextId := s.nextId + 1
              mapLayers := s.mapLayers ++ [layer]
              registry := s.registry ++ [("GeoTIFF Base Layer", layer)] }
            match inp.bounds with
            | some b =>
                .ok { s with
                  viewport := Viewport.fittedTo b
                  status := "GeoTIFF displayed successfully" }
            | none =>
                .ok { s with status := "GeoTIFF loaded, but no valid bounds" }
      else .error ("Failed to fetch GeoTIFF: " ++ statusText, s)

/-- `loadGeoTIFF` (part_000 lines 49-97): the raster phase, then — only
on its success — `loadStressData`; a raster-phase error is caught and
reported as `"Error: " + message`.  (`loadStressData` catches its own
errors, so the outer catch sees only raster-phase throws.) -/
def loadGeoTIFF (s : AppState) (inp : RasterInput) (vinputs : List VFetch) :
    AppState :=
  match rasterPhase s inp with
  | .error (m, sErr) => { sErr with status := "Error: " ++ m }
  | .ok sOk => loadStressData sOk vinputs

/- ### Invariants -/

/-- Every stress layer on the map or in the layer control is tracked in
`stressLayersRef.current` — the invariant under which the removal loop
of lines 107-111 really removes every previously registered overlay. -/
def stressScoped (s : AppState) : Prop :=
  (∀ l ∈ s.mapLayers, isStress l = true → l ∈ s.stressLayers) ∧
  (∀ p ∈ s.registry, isStress p.2 = true → p.2 ∈ s.stressLayers)

instance (s : AppState) : Decidable (stressScoped s) := by
  unfold stressScoped; infer_instance

/- ### Helper lemmas about the vector overlay loader -/

/-- The control entries `processDatasets` appends, starting at fresh id
`a` and dataset index `i`. -/
def builtEntries (a i : Nat) : List Dataset → List (String × Layer)
  | [] => []
  | d :: rest =>
      (stressName i, Layer.stress (mkStressLayer a i d)) :: builtEntries (a + 1) (i + 1) rest

/-- The layers the success path of `loadStressData` adds to the map:
only dataset 0's layer (`if (datasetIndex === 0)`, line 151). -/
def firstLayerOnly (nid : Nat) : List Dataset → List Layer
  | [] => []
  | d :: _ => [Layer.stress (mkStressLayer nid 0 d)]

/-- Force the HTTP `ok` flag of a resolved vector fetch to true, leaving
everything else (in particular the body) unchanged. -/
def setOkTrue : VFetch → VFetch
  | .reject m => .reject m
  | .resolved _ body => .resolved true body

/-- Two parsed bodies that denote the same feature list (for example a
single feature and the one-element collection it normalizes to). -/
def bodySim : Except String Dataset → Except String Dataset → Prop
  | .error m1, .error m2 => m1 = m2
  | .ok d1, .ok d2 => datasetFeatures d1 = datasetFeatures d2
  | _, _ => False

/-- Two vector fetch outcomes that differ at most in how their bodies
spell the same feature list. -/
def vfetchSim : VFetch → VFetch → Prop
  | .reject m1, .reject m2 => m1 = m2
  | .resolved b1 body1, .resolved b2 body2 => b1 = b2 ∧ bodySim body1 body2
  | _, _ => False

/-- `vfetchSim`, lifted to the responses produced by the fetch stage. -/
def respSim (p q : Bool × Except String Dataset) : Prop :=
  p.1 = q.1 ∧ bodySim p.2 q.2

/- ### Concrete states and inputs used by the witnesses -/

/-- A demonstration feature with stress value 1. -/
def demoFeature : Feature := ⟨1, some "NDVI", 0⟩

/-- A demonstration bounds rectangle. -/
def demoBounds : GeoBounds := ⟨0, 0, 1, 1⟩

/-- A demonstration decoded raster. -/
def demoGeoraster : Georaster := ⟨some 0⟩

/-- A fully successful raster-load environment. -/
def rasterOkInput : RasterInput :=
  ⟨RFetch.resolved true "OK", .ok demoGeoraster, some demoBounds⟩

/-- A raster fetch that resolved with a non-success HTTP status. -/
def rasterBadInput : RasterInput :=
  ⟨RFetch.resolved false "Not Found", .ok demoGeoraster, none⟩

/-- The state after a successful raster step: GeoTIFF layer on the map
and registered in the control. -/
def rasterShownState : AppState :=
  { initialState with
    mapLayers := [Layer.base, Layer.geotiff 0]
    registry := [("GeoTIFF Base Layer", Layer.geotiff 0)] }

/-- A demonstration FeatureCollection body. -/
def demoDataset1 : Dataset := Dataset.featureCollection [demoFeature]

/-- A demonstration single-Feature body. -/
def demoDataset2 : Dataset := Dataset.single demoFeature

/-- Two successful vector fetches. -/
def demoInputs : List VFetch :=
  [VFetch.resolved true (.ok demoDataset1), VFetch.resolved true (.ok demoDataset2)]

/-- Two vector fetches that resolved with non-2xx HTTP statuses but
JSON-parseable bodies. -/
def demoInputsNotOk : List VFetch :=
  [VFetch.resolved false (.ok demoDataset1), VFetch.resolved false (.ok demoDataset2)]

theorem builtEntries_length (a i : Nat) (ds : List Dataset) :
    (builtEntries a i ds).length = ds.length := by
  induction ds generalizing a i with
  | nil => rfl
  | cons d rest ih => simp [builtEntries, ih]

theorem builtEntries_map_fst (a i : Nat) (ds : List Dataset) :
    (builtEntries a i ds).map Prod.fst = (List.range' i ds.length).map stressName := by
  induction ds generalizing a i with
  | nil => rfl
  | cons d rest ih => simp [builtEntries, List.range'_succ, ih]

theorem builtEntries_isStress (a i : Nat) (ds : List Dataset) :
    ∀ p ∈ builtEntries a i ds, isStress p.2 = true := by
  induction ds generalizing a i with
  | nil => intro p hp; cases hp
  | cons d rest ih =>
      intro p hp
      rw [builtEntries, List.mem_cons] at hp
      rcases hp with rfl | hp
      · rfl
      · exact ih _ _ p hp

theorem mem_builtEntries (a i : Nat) (ds : List Dataset) :
    ∀ p ∈ builtEntries a i ds, ∃ sl : StressLayer,
      p.2 = Layer.stress sl ∧ a ≤ sl.id ∧ sl.id < a + ds.length ∧
      i ≤ sl.datasetIndex := by
  induction ds generalizing a i with
  | nil => intro p hp; cases hp
  | cons d rest ih =>
      intro p hp
      rw [builtEntries, List.mem_cons] at hp
      rcases hp with rfl | hp
      · refine ⟨mkStressLayer a i d, rfl, le_refl a, ?_, le_refl i⟩
        simp only [mkStressLayer, List.length_cons]
        omega
      · obtain ⟨sl, h1, h2, h3, h4⟩ := ih (a + 1) (i + 1) p hp
        refine ⟨sl, h1, by omega, ?_, by omega⟩
        simp only [List.length_cons]
        omega

theorem processDatasets_registry (s : AppState) (i : Nat) (ds : List Dataset) :
    (processDatasets s i ds).registry = s.registry ++ builtEntries s.nextId i ds := by
  induction ds generalizing s i with
  | nil => simp [processDatasets, builtEntries]
  | cons d rest ih => simp [processDatasets, builtEntries, ih]

theorem processDatasets_stressLayers (s : AppState) (i : Nat) (ds : List Dataset) :
    (processDatasets s i ds).stressLayers =
      s.stressLayers ++ (builtEntries s.nextId i ds).map Prod.snd := by
  induction ds generalizing s i with
  | nil => simp [processDatasets, builtEntries]
  | cons d rest ih => simp [processDatasets, builtEntries, ih]

theorem processDatasets_nextId (s : AppState) (i : Nat) (ds : List Dataset) :
    (processDatasets s i ds).nextId = s.nextId + ds.length := by
  induction ds generalizing s i with
  | nil => simp [processDatasets]
  | cons d rest ih => simp [processDatasets, ih]; omega

theorem processDatasets_status (s : AppState) (i : Nat) (ds : List Dataset) :
    (processDatasets s i ds).status = s.status := by
  induction ds generalizing s i with
  | nil => simp [processDatasets]
  | cons d rest ih => simp [processDatasets, ih]

theorem processDatasets_loading (s : AppState) (i : Nat) (ds : List Dataset) :
    (processDatasets s i ds).loading = s.loading := by
  induction ds generalizing s i with
  | nil => simp [processDatasets]
  | cons d rest ih => simp [processDatasets, ih]

theorem processDatasets_viewport (s : AppState) (i : Nat) (ds : List Dataset) :
    (processDatasets s i ds).viewport = s.viewport := by
  induction ds generalizing s i with
  | nil => simp [processDatasets]
  | cons d rest ih => simp [processDatasets, ih]

theorem processDatasets_stressLoadCalls (s : AppState) (i : Nat) (ds : List Dataset) :
    (processDatasets s i ds).stressLoadCalls = s.stressLoadCalls := by
  induction ds generalizing s i with
  | nil => simp [processDatasets]
  | cons d rest ih => simp [processDatasets, ih]

theorem processDatasets_setLoadingFalseCalls (s : AppState) (i : Nat) (ds : List Dataset) :
    (processDatasets s i ds).setLoadingFalseCalls = s.setLoadingFalseCalls := by
  induction ds generalizing s i with
  | nil => simp [processDatasets]
  | cons d rest ih => simp [processDatasets, ih]

theorem processDatasets_mapLayers_pos (s : AppState) (i : Nat) (ds : List Dataset)
    (hi : 1 ≤ i) : (processDatasets s i ds).mapLayers = s.mapLayers := by
  induction ds generalizing s i with
  | nil => simp [processDatasets]
  | cons d rest ih =>
      have hne : ¬ i = 0 := by omega
      have h1 : 1 ≤ i + 1 := by omega
      simp [processDatasets, hne, ih _ _ h1]

theorem processDatasets_mapLayers_zero (s : AppState) (d : Dataset) (rest : List Dataset) :
    (processDatasets s 0 (d :: rest)).mapLayers =
      s.mapLayers ++ [Layer.stress (mkStressLayer s.nextId 0 d)] := by
  simp [processDatasets, processDatasets_mapLayers_pos _ 1 rest (le_refl 1)]

theorem removeStressLayers_def (s : AppState) :
    removeStressLayers s =
      { s with
        mapLayers := s.mapLayers.filter (fun l => decide (l ∉ s.stressLayers))
        registry := s.registry.filter (fun p => decide (p.2 ∉ s.stressLayers))
        stressLayers := [] } := rfl

theorem mem_removeStressLayers_mapLayers (s : AppState) (l : Layer) :
    l ∈ (removeStressLayers s).mapLayers ↔ l ∈ s.mapLayers ∧ l ∉ s.stressLayers := by
  simp [removeStressLayers, List.mem_filter]

theorem mem_removeStressLayers_registry (s : AppState) (p : String × Layer) :
    p ∈ (removeStressLayers s).registry ↔ p ∈ s.registry ∧ p.2 ∉ s.stressLayers := by
  simp [removeStressLayers, List.mem_filter]

theorem loadStressData_failure_eq (s : AppState) (inputs : List VFetch)
    (m : String) (h : vectorBatchResult inputs = .error m) :
    loadStressData s inputs =
      { s with
        stressLoadCalls := s.stressLoadCalls + 1
        status := "Error loading stress data: " ++ m } := by
  unfold loadStressData
  rw [h]

theorem loadStressData_success_eq (s : AppState) (inputs : List VFetch)
    (ds : List Dataset) (h : vectorBatchResult inputs = .ok ds) :
    loadStressData s inputs =
      (let s1 := processDatasets
        (removeStressLayers
          { s with
            stressLoadCalls := s.stressLoadCalls + 1
            status := "Loading stress data..." }) 0 ds
       { s1 with
         status := "Stress data overlaid successfully"
         loading := false
         setLoadingFalseCalls := s1.setLoadingFalseCalls + 1 }) := by
  unfold loadStressData
  rw [h]

theorem loadStressData_success_registry (s : AppState) (inputs : List VFetch)
    (ds : List Dataset) (h : vectorBatchResult inputs = .ok ds) :
    (loadStressData s inputs).registry =
      s.registry.filter (fun p => decide (p.2 ∉ s.stressLayers)) ++
        builtEntries s.nextId 0 ds := by
  rw [loadStressData_success_eq s inputs ds h]
  simp [processDatasets_registry, removeStressLayers]

theorem loadStressData_success_stressLayers (s : AppState) (inputs : List VFetch)
    (ds : List Dataset) (h : vectorBatchResult inputs = .ok ds) :
    (loadStressData s inputs).stressLayers =
      (builtEntries s.nextId 0 ds).map Prod.snd := by
  rw [loadStressData_success_eq s inputs ds h]
  simp [processDatasets_stressLayers, removeStressLayers]

theorem loadStressData_success_mapLayers (s : AppState) (inputs : List VFetch)
    (ds : List Dataset) (h : vectorBatchResult inputs = .ok ds) :
    (loadStressData s inputs).mapLayers =
      s.mapLayers.filter (fun l => decide (l ∉ s.stressLayers)) ++
        firstLayerOnly s.nextId ds := by
  rw [loadStressData_success_eq s inputs ds h]
  cases ds with
  | nil => simp [processDatasets, removeStressLayers, firstLayerOnly]
  | cons d rest =>
      simp [processDatasets_mapLayers_zero, removeStressLayers, firstLayerOnly]

theorem loadStressData_success_flags (s : AppState) (inputs : List VFetch)
    (ds : List Dataset) (h : vectorBatchResult inputs = .ok ds) :
    (loadStressData s inputs).status = "Stress data overlaid successfully" ∧
    (loadStressData s inputs).loading = false ∧
    (loadStressData s inputs).viewport = s.viewport ∧
    (loadStressData s inputs).nextId = s.nextId + ds.length ∧
    (loadStressData s inputs).stressLoadCalls = s.stressLoadCalls + 1 ∧
    (loadStressData s inputs).setLoadingFalseCalls = s.setLoadingFalseCalls + 1 := by
  rw [loadStressData_success_eq s inputs ds h]
  refine ⟨rfl, rfl, ?_, ?_, ?_, ?_⟩
  · simp [processDatasets_viewport, removeStressLayers]
  · simp [processDatasets_nextId, removeStressLayers]
  · simp [processDatasets_stressLoadCalls, removeStressLayers]
  · simp [processDatasets_setLoadingFalseCalls, removeStressLayers]

theorem loadStressData_success_scoped (s : AppState) (inputs : List VFetch)
    (ds : List Dataset) (H : stressScoped s) (h : vectorBatchResult inputs = .ok ds) :
    stressScoped (loadStressData s inputs) := by
  constructor
  · intro l hl hs
    rw [loadStressData_success_mapLayers s inputs ds h] at hl
    rw [loadStressData_success_stressLayers s inputs ds h]
    rcases List.mem_append.mp hl with hl | hl
    · obtain ⟨hmem, hdec⟩ := List.mem_filter.mp hl
      exact absurd (H.1 l hmem hs) (of_decide_eq_true hdec)
    · cases ds with
      | nil => cases hl
      | cons d rest =>
          have he := List.mem_singleton.mp hl
          subst he
          exact List.mem_map.mpr ⟨(stressName 0, Layer.stress (mkStressLayer s.nextId 0 d)),
            List.mem_cons_self _ _, rfl⟩
  · intro p hp hs
    rw [loadStressData_success_registry s inputs ds h] at hp
    rw [loadStressData_success_stressLayers s inputs ds h]
    rcases List.mem_append.mp hp with hp | hp
    · obtain ⟨hmem, hdec⟩ := List.mem_filter.mp hp
      exact absurd (H.2 p hmem hs) (of_decide_eq_true hdec)
    · exact List.mem_map.mpr ⟨p, hp, rfl⟩

theorem loadStressData_success_stressEntries (s : AppState) (inputs : List VFetch)
    (ds : List Dataset) (H : stressScoped s) (h : vectorBatchResult inputs = .ok ds) :
    (((loadStressData s inputs).registry.filter (fun p => isStress p.2)).map Prod.fst) =
      (List.range ds.length).map stressName := by
  rw [loadStressData_success_registry s inputs ds h, List.filter_append]
  have h1 : (s.registry.filter (fun p => decide (p.2 ∉ s.stressLayers))).filter
      (fun p => isStress p.2) = [] := by
    rw [List.filter_eq_nil_iff]
    intro p hp
    obtain ⟨hmem, hdec⟩ := List.mem_filter.mp hp
    intro hs
    exact absurd (H.2 p hmem hs) (of_decide_eq_true hdec)
  have h2 : (builtEntries s.nextId 0 ds).filter (fun p => isStress p.2) =
      builtEntries s.nextId 0 ds := by
    rw [List.filter_eq_self]
    exact builtEntries_isStress s.nextId 0 ds
  rw [h1, h2, List.nil_append, builtEntries_map_fst, List.range_eq_range']

theorem loadStressData_success_idBound (s : AppState) (inputs : List VFetch)
    (ds : List Dataset) (h : vectorBatchResult inputs = .ok ds) :
    ∀ l ∈ (loadStressData s inputs).stressLayers,
      ∃ sl : StressLayer, l = Layer.stress sl ∧
        sl.id < (loadStressData s inputs).nextId := by
  intro l hl
  rw [loadStressData_success_stressLayers s inputs ds h] at hl
  obtain ⟨p, hp, rfl⟩ := List.mem_map.mp hl
  obtain ⟨sl, h1, _h2, h3, _h4⟩ := mem_builtEntries s.nextId 0 ds p hp
  refine ⟨sl, h1, ?_⟩
  have := (loadStressData_success_flags s inputs ds h).2.2.2.1
  omega

theorem loadStressData_stale_removed (s1 : AppState) (inputs : List VFetch)
    (ds : List Dataset) (h : vectorBatchResult inputs = .ok ds)
    (hid : ∀ l ∈ s1.stressLayers, ∃ sl : StressLayer,
      l = Layer.stress sl ∧ sl.id < s1.nextId) :
    ∀ l ∈ s1.stressLayers,
      l ∉ (loadStressData s1 inputs).mapLayers ∧
      ∀ p ∈ (loadStressData s1 inputs).registry, p.2 ≠ l := by
  intro l hl
  obtain ⟨sl, rfl, hlt⟩ := hid l hl
  constructor
  · rw [loadStressData_success_mapLayers s1 inputs ds h]
    intro hmem
    rcases List.mem_append.mp hmem with hm | hm
    · exact of_decide_eq_true (List.mem_filter.mp hm).2 hl
    · cases ds with
      | nil => cases hm
      | cons d rest =>
          have he := List.mem_singleton.mp hm
          injection he with he'
          rw [he'] at hlt
          simp [mkStressLayer] at hlt
  · intro p hp
    rw [loadStressData_success_registry s1 inputs ds h] at hp
    rcases List.mem_append.mp hp with hm | hm
    · intro he
      exact of_decide_eq_true (List.mem_filter.mp hm).2 (he ▸ hl)
    · obtain ⟨sl', h1, h2, _h3, _h4⟩ := mem_builtEntries s1.nextId 0 ds p hm
      rw [h1]
      intro he
      cases he
      omega

/- ### Helper lemmas about the raster loader -/

theorem rasterPhase_fail (s : AppState) (inp : RasterInput)
    (h : rasterFails inp = true) :
    ∃ m sE, rasterPhase s inp = .error (m, sE) ∧
      sE.mapLayers = s.mapLayers ∧ sE.registry = s.registry ∧
      sE.stressLayers = s.stressLayers ∧ sE.loading = s.loading ∧
      sE.viewport = s.viewport ∧ sE.nextId = s.nextId ∧
      sE.stressLoadCalls = s.stressLoadCalls ∧
      sE.setLoadingFalseCalls = s.setLoadingFalseCalls ∧
      (∀ st, inp.fetch = RFetch.resolved false st →
        m = "Failed to fetch GeoTIFF: " ++ st) := by
  unfold rasterFails at h
  unfold rasterPhase
  cases hf : inp.fetch with
  | reject m =>
      refine ⟨m, _, rfl, rfl, rfl, rfl, rfl, rfl, rfl, rfl, rfl, ?_⟩
      intro st hst
      cases hst
  | resolved ok st =>
      rw [hf] at h
      cases ok with
      | false =>
          refine ⟨"Failed to fetch GeoTIFF: " ++ st, _, rfl, rfl, rfl, rfl, rfl,
            rfl, rfl, rfl, rfl, ?_⟩
          intro st' hst
          injection hst with _ h2
          rw [h2]
      | true =>
          simp only [Bool.not_true, Bool.false_or] at h
          cases hp : inp.parse with
          | error m =>
              refine ⟨m, _, rfl, rfl, rfl, rfl, rfl, rfl, rfl, rfl, rfl, ?_⟩
              intro st' hst
              cases hst
          | ok g => rw [hp] at h; simp at h

theorem rasterPhase_ok_shape (s : AppState) (inp : RasterInput)
    (h : rasterFails inp = false) :
    ∃ sOk, rasterPhase s inp = .ok sOk ∧
      sOk.loading = s.loading ∧
      sOk.setLoadingFalseCalls = s.setLoadingFalseCalls ∧
      sOk.stressLoadCalls = s.stressLoadCalls ∧
      sOk.stressLayers = s.stressLayers ∧
      sOk.mapLayers = s.mapLayers ++ [Layer.geotiff s.nextId] ∧
      sOk.registry = s.registry ++ [("GeoTIFF Base Layer", Layer.geotiff s.nextId)] := by
  unfold rasterFails at h
  unfold rasterPhase
  cases hf : inp.fetch with
  | reject m => rw [hf] at h; cases h
  | resolved ok st =>
      rw [hf] at h
      cases ok with
      | false => simp at h
      | true =>
          simp only [Bool.not_true, Bool.false_or] at h
          cases hp : inp.parse with
          | error m => rw [hp] at h; simp at h
          | ok g =>
              cases hb : inp.bounds with
              | some b => exact ⟨_, rfl, rfl, rfl, rfl, rfl, rfl, rfl⟩
              | none => exact ⟨_, rfl, rfl, rfl, rfl, rfl, rfl, rfl⟩

/- ### Congruence lemmas: the loader only looks at the feature lists -/

theorem fetchAll_setOkTrue (inputs : List VFetch) :
    fetchAll (inputs.map setOkTrue) =
      (fetchAll inputs).map (fun rs => rs.map (fun p => (true, p.2))) := by
  induction inputs with
  | nil => rfl
  | cons x rest ih =>
      cases x with
      | reject m => rfl
      | resolved ok body =>
          simp only [List.map_cons, setOkTrue, fetchAll, ih]
          cases fetchAll rest <;> rfl

theorem parseAll_ignores_ok (rs : List (Bool × Except String Dataset)) :
    parseAll (rs.map (fun p => (true, p.2))) = parseAll rs := by
  induction rs with
  | nil => rfl
  | cons p rest ih =>
      obtain ⟨b, body⟩ := p
      cases body with
      | error m => rfl
      | ok d => simp only [List.map_cons, parseAll, ih]

theorem vectorBatchResult_setOkTrue (inputs : List VFetch) :
    vectorBatchResult (inputs.map setOkTrue) = vectorBatchResult inputs := by
  unfold vectorBatchResult
  rw [fetchAll_setOkTrue]
  cases fetchAll inputs with
  | error m => rfl
  | ok rs => exact parseAll_ignores_ok rs

theorem vfetchSim_refl (x : VFetch) : vfetchSim x x := by
  cases x with
  | reject m => exact rfl
  | resolved b body =>
      refine ⟨rfl, ?_⟩
      cases body with
      | error m => exact rfl
      | ok d => exact rfl

theorem forall₂_vfetchSim_refl (l : List VFetch) : List.Forall₂ vfetchSim l l := by
  induction l with
  | nil => exact List.Forall₂.nil
  | cons x rest ih => exact List.Forall₂.cons (vfetchSim_refl x) ih

theorem fetchAll_sim (in1 in2 : List VFetch) (h : List.Forall₂ vfetchSim in1 in2) :
    (∃ m, fetchAll in1 = .error m ∧ fetchAll in2 = .error m) ∨
    (∃ rs1 rs2, fetchAll in1 = .ok rs1 ∧ fetchAll in2 = .ok rs2 ∧
      List.Forall₂ respSim rs1 rs2) := by
  induction h with
  | nil => exact Or.inr ⟨[], [], rfl, rfl, List.Forall₂.nil⟩
  | cons hxy hrest ih =>
      rename_i x y l1 l2
      cases x with
      | reject m1 =>
          cases y with
          | reject m2 => cases hxy; exact Or.inl ⟨m1, rfl, rfl⟩
          | resolved b2 body2 => cases hxy
      | resolved b1 body1 =>
          cases y with
          | reject m2 => cases hxy
          | resolved b2 body2 =>
              obtain ⟨hb, hbody⟩ := hxy
              cases hb
              rcases ih with ⟨m, h1, h2⟩ | ⟨rs1, rs2, h1, h2, hsim⟩
              · exact Or.inl ⟨m, by simp [fetchAll, h1, Except.map],
                  by simp [fetchAll, h2, Except.map]⟩
              · exact Or.inr ⟨(b1, body1) :: rs1, (b1, body2) :: rs2,
                  by simp [fetchAll, h1, Except.map], by simp [fetchAll, h2, Except.map],
                  List.Forall₂.cons ⟨rfl, hbody⟩ hsim⟩

theorem parseAll_sim (rs1 rs2 : List (Bool × Except String Dataset))
    (h : List.Forall₂ respSim rs1 rs2) :
    (∃ m, parseAll rs1 = .error m ∧ parseAll rs2 = .error m) ∨
    (∃ ds1 ds2, parseAll rs1 = .ok ds1 ∧ parseAll rs2 = .ok ds2 ∧
      List.Forall₂ (fun d1 d2 => datasetFeatures d1 = datasetFeatures d2) ds1 ds2) := by
  induction h with
  | nil => exact Or.inr ⟨[], [], rfl, rfl, List.Forall₂.nil⟩
  | cons hxy hrest ih =>
      rename_i p q l1 l2
      obtain ⟨b1, body1⟩ := p
      obtain ⟨b2, body2⟩ := q
      obtain ⟨hb, hbody⟩ := hxy
      cases body1 with
      | error m1 =>
          cases body2 with
          | error m2 => cases hbody; exact Or.inl ⟨m1, rfl, rfl⟩
          | ok d2 => cases hbody
      | ok d1 =>
          cases body2 with
          | error m2 => cases hbody
          | ok d2 =>
              rcases ih with ⟨m, h1, h2⟩ | ⟨ds1, ds2, h1, h2, hsim⟩
              · exact Or.inl ⟨m, by simp [parseAll, h1, Except.map],
                  by simp [parseAll, h2, Except.map]⟩
              · exact Or.inr ⟨d1 :: ds1, d2 :: ds2,
                  by simp [parseAll, h1, Except.map], by simp [parseAll, h2, Except.map],
                  List.Forall₂.cons hbody hsim⟩

theorem processDatasets_congr (s : AppState) (i : Nat) (ds1 ds2 : List Dataset)
    (h : List.Forall₂ (fun d1 d2 => datasetFeatures d1 = datasetFeatures d2) ds1 ds2) :
    processDatasets s i ds1 = processDatasets s i ds2 := by
  induction h generalizing s i with
  | nil => rfl
  | cons hxy hrest ih =>
      rename_i d1 d2 l1 l2
      have hmk : mkStressLayer s.nextId i d1 = mkStressLayer s.nextId i d2 := by
        unfold mkStressLayer
        rw [hxy]
      simp only [processDatasets, hmk]
      exact ih _ _

theorem loadStressData_congr (s : AppState) (in1 in2 : List VFetch)
    (h : List.Forall₂ vfetchSim in1 in2) :
    loadStressData s in1 = loadStressData s in2 := by
  rcases fetchAll_sim in1 in2 h with ⟨m, h1, h2⟩ | ⟨rs1, rs2, h1, h2, hsim⟩
  · have e1 : vectorBatchResult in1 = .error m := by unfold vectorBatchResult; rw [h1]
    have e2 : vectorBatchResult in2 = .error m := by unfold vectorBatchResult; rw [h2]
    rw [loadStressData_failure_eq s in1 m e1, loadStressData_failure_eq s in2 m e2]
  · rcases parseAll_sim rs1 rs2 hsim with ⟨m, p1, p2⟩ | ⟨ds1, ds2, p1, p2, hds⟩
    · have e1 : vectorBatchResult in1 = .error m := by
        unfold vectorBatchResult; rw [h1]; exact p1
      have e2 : vectorBatchResult in2 = .error m := by
        unfold vectorBatchResult; rw [h2]; exact p2
      rw [loadStressData_failure_eq s in1 m e1, loadStressData_failure_eq s in2 m e2]
    · have e1 : vectorBatchResult in1 = .ok ds1 := by
        unfold vectorBatchResult; rw [h1]; exact p1
      have e2 : vectorBatchResult in2 = .ok ds2 := by
        unfold vectorBatchResult; rw [h2]; exact p2
      rw [loadStressData_success_eq s in1 ds1 e1, loadStressData_success_eq s in2 ds2 e2]
      simp only []
      rw [processDatasets_congr _ 0 ds1 ds2 hds]

/- ### Small facts about the styling functions -/

theorem stressStyle_hue (x : ℚ) : (stressStyle x).fillColor.h = clamp01 x * 120 := by
  by_cases hx : x ≤ 3/10 <;> simp [stressStyle, hx]

theorem clamp01_mono {v w : ℚ} (h : v ≤ w) : clamp01 v ≤ clamp01 w :=
  min_le_min (le_refl 1) (max_le_max (le_refl 0) h)

theorem clamp01_le_threshold (x : ℚ) : clamp01 x ≤ 3/10 ↔ x ≤ 3/10 := by
  rw [clamp01, min_le_iff, max_le_iff]
  norm_num

/- ### Claims -/

/-- C1: every feature styled with stress value `v` gets fill hue
`clamp01 v * 120` (monotone non-decreasing in `v`), fixed fill opacity
0.7 and fixed stroke weight 0.5, and a stroke color that is `"red"` iff
`v ≤ 0.3` and `"green"` otherwise — a condition equivalent to the same
threshold on the clamped value, and independent of the fill hue. -/
theorem stressStyle_spec (v : ℚ) :
    (stressStyle v).fillColor.h = clamp01 v * 120 ∧
    (stressStyle v).fillOpacity = 7/10 ∧
    (stressStyle v).weight = 1/2 ∧
    (stressStyle v).color = (if v ≤ 3/10 then "red" else "green") ∧
    (clamp01 v ≤ 3/10 ↔ v ≤ 3/10) ∧
    (∀ w, v ≤ w → (stressStyle v).fillColor.h ≤ (stressStyle w).fillColor.h) := by
  refine ⟨stressStyle_hue v, ?_, ?_, ?_, clamp01_le_threshold v, ?_⟩
  · by_cases hv : v ≤ 3/10 <;> simp [stressStyle, hv]
  · by_cases hv : v ≤ 3/10 <;> simp [stressStyle, hv]
  · by_cases hv : v ≤ 3/10 <;> simp [stressStyle, hv]
  · intro w hw
    rw [stressStyle_hue v, stressStyle_hue w]
    exact mul_le_mul_of_nonneg_right (clamp01_mono hw) (by norm_num)

/-- Witness for C1 at `v = 1/5`, `w = 4/5`. -/
theorem stressStyle_spec_witness :
    (stressStyle (1/5)).fillColor.h ≤ (stressStyle (4/5)).fillColor.h ∧
    (stressStyle (1/5)).color = "red" := by
  constructor
  · exact (stressStyle_spec (1/5)).2.2.2.2.2 (4/5) (by norm_num)
  · have h := (stressStyle_spec (1/5)).2.2.2.1
    rw [h]
    norm_num

/-- C2: a pixel whose first band is absent or `null` or equals the
raster's no-data sentinel is rendered transparent (`null`, no draw);
any other pixel is rendered as the grayscale color whose intensity is
the band value times 255, clamped into `[0, 255]`, at opacity 0.5. -/
theorem pixelValuesToColorFn_spec (g : Georaster) (values : List (Option ℚ)) :
    (values.head?.bind id = none → pixelValuesToColorFn g values = none) ∧
    (∀ v : ℚ, values.head?.bind id = some v → g.noDataValue = some v →
      pixelValuesToColorFn g values = none) ∧
    (∀ v : ℚ, values.head?.bind id = some v → g.noDataValue ≠ some v →
      pixelValuesToColorFn g values =
        some ⟨min 255 (max 0 (v * 255)), min 255 (max 0 (v * 255)),
          min 255 (max 0 (v * 255)), 1/2⟩ ∧
      0 ≤ min 255 (max 0 (v * 255)) ∧ min 255 (max 0 (v * 255)) ≤ 255) := by
  refine ⟨?_, ?_, ?_⟩
  · intro h
    unfold pixelValuesToColorFn
    rw [h]
  · intro v hv hnd
    unfold pixelValuesToColorFn
    rw [hv, hnd]
    simp
  · intro v hv hnd
    have hne : ¬ (some v = g.noDataValue) := fun he => hnd he.symm
    refine ⟨?_, le_min (by norm_num) (le_max_left 0 _), min_le_left _ _⟩
    unfold pixelValuesToColorFn
    rw [hv]
    simp [hne]

/-- Witness for C2: the no-data sentinel is transparent, an in-range
value is drawn in gray at opacity 0.5. -/
theorem pixelValuesToColorFn_spec_witness :
    pixelValuesToColorFn ⟨some 5⟩ [some 5] = none ∧
    pixelValuesToColorFn ⟨some 5⟩ [some 2] = some ⟨255, 255, 255, 1/2⟩ := by
  constructor
  · exact (pixelValuesToColorFn_spec ⟨some 5⟩ [some 5]).2.1 5 rfl rfl
  · have h := ((pixelValuesToColorFn_spec ⟨some 5⟩ [some 2]).2.2 2 rfl (by norm_num)).1
    rw [h]
    norm_num

/-- C3: if any vector fetch rejects or any body fails to parse, no
overlay mutation happens at all — map layers, registry and the stress
layer list are exactly as before, the loading flag is untouched, an
error status is reported, and any raster layer on the map stays there. -/
theorem loadStressData_allOrNothing (s : AppState) (inputs : List VFetch)
    (m : String) (h : vectorBatchResult inputs = .error m) :
    (loadStressData s inputs).mapLayers = s.mapLayers ∧
    (loadStressData s inputs).registry = s.registry ∧
    (loadStressData s inputs).stressLayers = s.stressLayers ∧
    (loadStressData s inputs).loading = s.loading ∧
    (loadStressData s inputs).status = "Error loading stress data: " ++ m ∧
    (∀ gid, Layer.geotiff gid ∈ s.mapLayers →
      Layer.geotiff gid ∈ (loadStressData s inputs).mapLayers) := by
  rw [loadStressData_failure_eq s inputs m h]
  exact ⟨rfl, rfl, rfl, rfl, rfl, fun gid hg => hg⟩

/-- Witness for C3: one rejected fetch, starting from the state in which
the raster step already succeeded. -/
theorem loadStressData_allOrNothing_witness :
    (loadStressData rasterShownState [VFetch.reject "network down"]).registry =
      rasterShownState.registry ∧
    Layer.geotiff 0 ∈
      (loadStressData rasterShownState [VFetch.reject "network down"]).mapLayers := by
  have h := loadStressData_allOrNothing rasterShownState
    [VFetch.reject "network down"] "network down" rfl
  exact ⟨h.2.1, h.2.2.2.2.2 0 (by decide)⟩

/-- C4: if the raster fetch resolves with a non-success HTTP status (or
the raster step fails in any other way), `loadStressData` is never
invoked, the run ends with an `"Error: ..."` status containing the
failure message (for a non-ok response, exactly the thrown
`Failed to fetch GeoTIFF` message), and no loading-finished signal is
sent. -/
theorem loadGeoTIFF_failure_no_vector (s : AppState) (inp : RasterInput)
    (vinputs : List VFetch) (h : rasterFails inp = true) :
    (loadGeoTIFF s inp vinputs).stressLoadCalls = s.stressLoadCalls ∧
    (∃ m, (loadGeoTIFF s inp vinputs).status = "Error: " ++ m) ∧
    (∀ st, inp.fetch = RFetch.resolved false st →
      (loadGeoTIFF s inp vinputs).status = "Error: Failed to fetch GeoTIFF: " ++ st) ∧
    (loadGeoTIFF s inp vinputs).loading = s.loading ∧
    (loadGeoTIFF s inp vinputs).setLoadingFalseCalls = s.setLoadingFalseCalls := by
  obtain ⟨m, sE, hEq, _h1, _h2, _h3, h4, _h5, _h6, h7, h8, hmsg⟩ := rasterPhase_fail s inp h
  unfold loadGeoTIFF
  rw [hEq]
  refine ⟨by simpa using h7, ⟨m, rfl⟩, ?_, by simpa using h4, by simpa using h8⟩
  intro st hst
  simp only [hmsg st hst]
  rw [← String.append_assoc]
  rfl

/-- Witness for C4: a 404-style response; the vector loader never runs
and the status carries the fetch failure message. -/
theorem loadGeoTIFF_failure_no_vector_witness :
    (loadGeoTIFF initialState rasterBadInput demoInputs).stressLoadCalls =
      initialState.stressLoadCalls ∧
    (loadGeoTIFF initialState rasterBadInput demoInputs).status =
      "Error: Failed to fetch GeoTIFF: Not Found" := by
  have h := loadGeoTIFF_failure_no_vector initialState rasterBadInput demoInputs rfl
  exact ⟨h.1, h.2.2.1 "Not Found" rfl⟩

/-- C5: invoking the vector overlay load twice (both invocations
succeeding) leaves the layer control with exactly one stress overlay
entry per source (index), because every overlay registered by the first
invocation has been removed from both the map and the control: repeated
loads never accumulate stale layers. -/
theorem loadStressData_idempotent (s : AppState) (in1 in2 : List VFetch)
    (ds1 ds2 : List Dataset) (H : stressScoped s)
    (h1 : vectorBatchResult in1 = .ok ds1) (h2 : vectorBatchResult in2 = .ok ds2) :
    ((loadStressData (loadStressData s in1) in2).registry.filter
        (fun p => isStress p.2)).map Prod.fst =
      (List.range ds2.length).map stressName ∧
    (∀ l ∈ (loadStressData s in1).stressLayers,
      l ∉ (loadStressData (loadStressData s in1) in2).mapLayers ∧
      ∀ p ∈ (loadStressData (loadStressData s in1) in2).registry, p.2 ≠ l) := by
  have Hs1 := loadStressData_success_scoped s in1 ds1 H h1
  have hid := loadStressData_success_idBound s in1 ds1 h1
  exact ⟨loadStressData_success_stressEntries _ in2 ds2 Hs1 h2,
    loadStressData_stale_removed _ in2 ds2 h2 hid⟩

/-- Witness for C5: loading the two demo sources twice from the
post-raster state leaves one entry per source and no first-round layer
on the map. -/
theorem loadStressData_idempotent_witness :
    ((loadStressData (loadStressData rasterShownState demoInputs) demoInputs).registry.filter
        (fun p => isStress p.2)).map Prod.fst =
      (List.range ([demoDataset1, demoDataset2] : List Dataset).length).map stressName ∧
    (∀ l ∈ (loadStressData rasterShownState demoInputs).stressLayers,
      l ∉ (loadStressData (loadStressData rasterShownState demoInputs) demoInputs).mapLayers) := by
  have h := loadStressData_idempotent rasterShownState demoInputs demoInputs
    [demoDataset1, demoDataset2] [demoDataset1, demoDataset2] (by decide) rfl rfl
  exact ⟨h.1, fun l hl => (h.2 l hl).1⟩

/-- C6: after a successful raster fetch and decode, if the layer reports
valid bounds the viewport is fitted to them and the status becomes
"GeoTIFF displayed successfully"; with invalid bounds the viewport is
left unchanged and the degraded-but-successful status is reported. -/
theorem rasterPhase_bounds_viewport (s : AppState) (inp : RasterInput)
    (st : String) (g : Georaster)
    (hf : inp.fetch = RFetch.resolved true st) (hp : inp.parse = .ok g) :
    (∀ b, inp.bounds = some b → ∃ s', rasterPhase s inp = .ok s' ∧
      s'.viewport = Viewport.fittedTo b ∧
      s'.status = "GeoTIFF displayed successfully") ∧
    (inp.bounds = none → ∃ s', rasterPhase s inp = .ok s' ∧
      s'.viewport = s.viewport ∧
      s'.status = "GeoTIFF loaded, but no valid bounds") := by
  unfold rasterPhase
  rw [hf, hp]
  constructor
  · intro b hb
    rw [hb]
    exact ⟨_, rfl, rfl, rfl⟩
  · intro hb
    rw [hb]
    exact ⟨_, rfl, rfl, rfl⟩

/-- Witness for C6: the successful raster environment fits the viewport
to the demo bounds. -/
theorem rasterPhase_bounds_viewport_witness :
    ∃ s', rasterPhase initialState rasterOkInput = .ok s' ∧
      s'.viewport = Viewport.fittedTo demoBounds ∧
      s'.status = "GeoTIFF displayed successfully" :=
  (rasterPhase_bounds_viewport initialState rasterOkInput "OK" demoGeoraster
    rfl rfl).1 demoBounds rfl

/-- C7: after a successful vector load of `d0 :: rest`, only the overlay
built from the first source is on the map (it is the only stress layer
on the map), every other overlay starts hidden, and every overlay —
first included — is registered in the layer control. -/
theorem loadStressData_first_visible (s : AppState) (inputs : List VFetch)
    (d0 : Dataset) (rest : List Dataset) (H : stressScoped s)
    (h : vectorBatchResult inputs = .ok (d0 :: rest)) :
    (loadStressData s inputs).stressLayers.length = rest.length + 1 ∧
    (loadStressData s inputs).stressLayers.head? =
      some (Layer.stress (mkStressLayer s.nextId 0 d0)) ∧
    Layer.stress (mkStressLayer s.nextId 0 d0) ∈ (loadStressData s inputs).mapLayers ∧
    (loadStressData s inputs).mapLayers.filter (fun l => isStress l) =
      [Layer.stress (mkStressLayer s.nextId 0 d0)] ∧
    (∀ l ∈ (loadStressData s inputs).stressLayers.tail,
      l ∉ (loadStressData s inputs).mapLayers) ∧
    (∀ l ∈ (loadStressData s inputs).stressLayers,
      ∃ nm, (nm, l) ∈ (loadStressData s inputs).registry) := by
  have hsl := loadStressData_success_stressLayers s inputs (d0 :: rest) h
  have hml := loadStressData_success_mapLayers s inputs (d0 :: rest) h
  have hreg := loadStressData_success_registry s inputs (d0 :: rest) h
  have hfilterNil : (s.mapLayers.filter (fun l => decide (l ∉ s.stressLayers))).filter
      (fun l => isStress l) = [] := by
    rw [List.filter_eq_nil_iff]
    intro l hl hs
    obtain ⟨hmem, hdec⟩ := List.mem_filter.mp hl
    exact absurd (H.1 l hmem hs) (of_decide_eq_true hdec)
  refine ⟨?_, ?_, ?_, ?_, ?_, ?_⟩
  · rw [hsl]
    simp [builtEntries, builtEntries_length]
  · rw [hsl]
    simp [builtEntries]
  · rw [hml]
    exact List.mem_append.mpr (Or.inr (by simp [firstLayerOnly]))
  · rw [hml, List.filter_append, hfilterNil, List.nil_append]
    simp [firstLayerOnly, isStress]
  · intro l hl
    rw [hsl] at hl
    simp only [builtEntries, List.map_cons, List.tail_cons] at hl
    obtain ⟨p, hp, rfl⟩ := List.mem_map.mp hl
    obtain ⟨sl, hpe, _hid1, _hid2, hdi⟩ := mem_builtEntries (s.nextId + 1) 1 rest p hp
    rw [hml]
    intro hmem
    rcases List.mem_append.mp hmem with hm | hm
    · obtain ⟨hmem2, hdec⟩ := List.mem_filter.mp hm
      have hs : isStress p.2 = true := by rw [hpe]; rfl
      exact absurd (H.1 p.2 hmem2 hs) (of_decide_eq_true hdec)
    · have he : p.2 = Layer.stress (mkStressLayer s.nextId 0 d0) := by
        simpa [firstLayerOnly] using hm
      rw [hpe] at he
      injection he with he'
      rw [he'] at hdi
      simp [mkStressLayer] at hdi
  · intro l hl
    rw [hsl] at hl
    obtain ⟨p, hp, rfl⟩ := List.mem_map.mp hl
    refine ⟨p.1, ?_⟩
    rw [hreg]
    exact List.mem_append.mpr (Or.inr hp)

/-- Witness for C7: with the two demo sources, there are two overlays
and the first one's layer is on the map. -/
theorem loadStressData_first_visible_witness :
    (loadStressData rasterShownState demoInputs).stressLayers.length =
      ([demoDataset2] : List Dataset).length + 1 ∧
    Layer.stress (mkStressLayer rasterShownState.nextId 0 demoDataset1) ∈
      (loadStressData rasterShownState demoInputs).mapLayers := by
  have h := loadStressData_first_visible rasterShownState demoInputs
    demoDataset1 [demoDataset2] (by decide) rfl
  exact ⟨h.1, h.2.2.1⟩

/-- C8: on a fully successful load (raster plus all vector sources) the
loading flag goes from true to false, the loading-finished signal is
sent exactly once, and the banner is no longer shown afterwards. -/
theorem loadGeoTIFF_loading_once (s : AppState) (inp : RasterInput)
    (vinputs : List VFetch) (ds : List Dataset)
    (hr : rasterFails inp = false) (hv : vectorBatchResult vinputs = .ok ds)
    (hl : s.loading = true) :
    bannerShown s = true ∧
    (loadGeoTIFF s inp vinputs).loading = false ∧
    (loadGeoTIFF s inp vinputs).setLoadingFalseCalls = s.setLoadingFalseCalls + 1 ∧
    bannerShown (loadGeoTIFF s inp vinputs) = false := by
  obtain ⟨sOk, hEq, _hload, hset, _hcalls, _hstress, _hmap, _hreg⟩ :=
    rasterPhase_ok_shape s inp hr
  unfold loadGeoTIFF
  rw [hEq]
  have hf := loadStressData_success_flags sOk vinputs ds hv
  refine ⟨hl, hf.2.1, ?_, ?_⟩
  · rw [hf.2.2.2.2.2, hset]
  · unfold bannerShown
    rw [hf.2.1]

/-- Witness for C8: the full successful demo run flips the flag once and
hides the banner. -/
theorem loadGeoTIFF_loading_once_witness :
    (loadGeoTIFF initialState rasterOkInput demoInputs).loading = false ∧
    (loadGeoTIFF initialState rasterOkInput demoInputs).setLoadingFalseCalls =
      initialState.setLoadingFalseCalls + 1 ∧
    bannerShown (loadGeoTIFF initialState rasterOkInput demoInputs) = false := by
  have h := loadGeoTIFF_loading_once initialState rasterOkInput demoInputs
    [demoDataset1, demoDataset2] rfl rfl rfl
  exact ⟨h.2.1, h.2.2.1, h.2.2.2⟩

/-- C9: a vector source whose JSON body is a single Feature is
normalized to the one-element collection it denotes: the constructed
layer, what it renders (styles and popups), and the entire loader run —
registration behavior included — are identical to those of a real
one-feature collection in the same position. -/
theorem singleFeature_normalization (s : AppState) (pre post : List VFetch)
    (b : Bool) (f : Feature) (id idx : Nat) :
    mkStressLayer id idx (Dataset.single f) =
      mkStressLayer id idx (Dataset.featureCollection [f]) ∧
    renderStressLayer (mkStressLayer id idx (Dataset.single f)) =
      renderStressLayer (mkStressLayer id idx (Dataset.featureCollection [f])) ∧
    loadStressData s (pre ++ VFetch.resolved b (.ok (Dataset.single f)) :: post) =
      loadStressData s
        (pre ++ VFetch.resolved b (.ok (Dataset.featureCollection [f])) :: post) := by
  refine ⟨rfl, rfl, ?_⟩
  apply loadStressData_congr
  exact List.rel_append (forall₂_vfetchSim_refl pre)
    (List.Forall₂.cons ⟨rfl, rfl⟩ (forall₂_vfetchSim_refl post))

/-- C10: the vector overlay loader never inspects the HTTP status of its
responses: forcing every resolved response's `ok` flag to true changes
nothing at all, and whenever no fetch rejects and every body parses —
2xx or not — the loader registers the overlays and reports the success
status exactly as on success. -/
theorem loadStressData_ignores_httpStatus (s : AppState) (inputs : List VFetch) :
    loadStressData s (inputs.map setOkTrue) = loadStressData s inputs ∧
    (∀ ds, vectorBatchResult inputs = .ok ds →
      (loadStressData s inputs).status = "Stress data overlaid successfully" ∧
      (loadStressData s inputs).registry =
        s.registry.filter (fun p => decide (p.2 ∉ s.stressLayers)) ++
          builtEntries s.nextId 0 ds) := by
  refine ⟨?_, ?_⟩
  · unfold loadStressData
    rw [vectorBatchResult_setOkTrue]
  · intro ds h
    exact ⟨(loadStressData_success_flags s inputs ds h).1,
      loadStressData_success_registry s inputs ds h⟩

/-- Witness for C10: two non-2xx responses with parseable bodies load
exactly like 2xx ones and report success. -/
theorem loadStressData_ignores_httpStatus_witness :
    loadStressData rasterShownState (demoInputsNotOk.map setOkTrue) =
      loadStressData rasterShownState demoInputsNotOk ∧
    (loadStressData rasterShownState demoInputsNotOk).status =
      "Stress data overlaid successfully" := by
  have h := loadStressData_ignores_httpStatus rasterShownState demoInputsNotOk
  exact ⟨h.1, (h.2 [demoDataset1, demoDataset2] rfl).1⟩

end Polybee
